import Mathlib

/-
  Verification of the intrusion-detection monitoring loop, alert state
  machine and display layer of the Samsung_IOT repository
  (src/main.py, src/display.py).

  Distances, thresholds and times are embedded as rationals; machine
  floats only ever enter comparisons here, so exact arithmetic is a
  faithful shallow embedding of the comparisons the code performs.
-/

namespace SamsungIOT

/- ## Intrusion evaluator -/

/-- Modelled from the spec: `alerts.py` (AlertManager.check_intrusion) is not
under `src/`.  Per spec section 3, a distance is valid when it is at least 0;
a negative value is the invalid sentinel (main.py line 130 tests
`distance >= 0` for validity). -/
def distanceValid (d : ℚ) : Bool := decide (0 ≤ d)

/-- Modelled from the spec: `alerts.py` (AlertManager.check_intrusion) is not
under `src/`.  Per spec sections 3 and 4.1, the verdict is
`motion AND (distance valid AND distance < threshold)`; pure and total. -/
def check_intrusion (motion : Bool) (distance threshold : ℚ) : Bool :=
  motion && (distanceValid distance && decide (distance < threshold))

/- ## Alert state machine -/

/-- Alert state owned by the alert controller, spec section 3. -/
inductive AlertState where
  | SAFE
  | ALERT
  deriving DecidableEq, Repr

/-- Command emitted toward the physical alert output. -/
inductive AlertCommand where
  | activate
  | reassert
  | deactivate
  deriving DecidableEq, Repr

/-- Modelled from the spec: `alerts.py` (AlertManager.update_status) is not
under `src/`.  The four rows of the transition table in spec section 4.2:
SAFE+true gives ALERT with an activate command; ALERT+true stays ALERT with
an idempotent re-assert; ALERT+false gives SAFE with a deactivate command;
SAFE+false stays SAFE with no command. -/
def update_status : AlertState → Bool → AlertState × Option AlertCommand
  | .SAFE, true => (.ALERT, some .activate)
  | .ALERT, true => (.ALERT, some .reassert)
  | .ALERT, false => (.SAFE, some .deactivate)
  | .SAFE, false => (.SAFE, none)

/-- The state-only transition table of spec section 4.2, written row by row
as the spec states it, to be compared against `update_status`. -/
def alertTable : AlertState → Bool → AlertState
  | .SAFE, true => .ALERT
  | .ALERT, true => .ALERT
  | .ALERT, false => .SAFE
  | .SAFE, false => .SAFE

/-- Applying `update_status` to each verdict of a sequence in order,
keeping only the state. -/
def runUpdates (s : AlertState) : List Bool → AlertState
  | [] => s
  | v :: vs => runUpdates (update_status s v).1 vs

theorem update_status_fst_eq_table (s : AlertState) (v : Bool) :
    (update_status s v).1 = alertTable s v := by
  cases s <;> cases v <;> rfl

theorem runUpdates_eq_foldl (s : AlertState) (vs : List Bool) :
    runUpdates s vs = vs.foldl alertTable s := by
  induction vs generalizing s with
  | nil => rfl
  | cons v vs ih =>
    simp only [runUpdates, List.foldl, update_status_fst_eq_table, ih]

/- ## LCD display (src/display.py) -/

/-- Modelled from the spec: `config.py` is not under `src/`; only the
message text matters here and no claim depends on its exact value. -/
def INTRUSION_MESSAGE : String := "INTRUSION DETECTED"

/-- Modelled from the spec: `config.py` is not under `src/`; only the
message text matters here and no claim depends on its exact value. -/
def SAFE_MESSAGE : String := "AREA SAFE"

/-- Mutable fields of `LCDDisplay` (display.py lines 35-38) that
`display_message` reads and commits. -/
structure DisplayState where
  current_message : String
  last_update_time : ℚ
  deriving DecidableEq, Repr

/-- Seconds between committed display updates (display.py line 38). -/
def display_update_interval : ℚ := 1

/-- The optional `data` dict passed to `display_message`
(display.py lines 83-96): keys motion, distance, timestamp, each optional. -/
structure DisplayData where
  motion : Option Bool
  distance : Option ℚ
  timestamp : Option String
  deriving DecidableEq, Repr

/-- What the distance section of a frame prints (display.py lines 88-93):
the numeric reading when `distance > 0`, otherwise the fixed
"Distance: No valid reading" line. -/
inductive DistanceLine where
  | numeric (d : ℚ)
  | noValidReading
  deriving DecidableEq, Repr

/-- Distance rendering of display.py lines 88-93: numeric iff `distance > 0`. -/
def renderDistance (d : ℚ) : DistanceLine :=
  if 0 < d then .numeric d else .noValidReading

/-- Validity test the monitoring loop's diagnostic log applies to the same
distance value (main.py line 130: `distance >= 0`). -/
def logDistanceValid (d : ℚ) : Bool := decide (0 ≤ d)

/-- One rendered frame of `display_message` (display.py lines 70-99):
the status message plus the optional data lines actually printed. -/
structure RenderedFrame where
  message : String
  motionLine : Option Bool
  distanceLine : Option DistanceLine
  timeLine : Option String
  deriving DecidableEq, Repr

/-- Lines printed for a frame, as display.py lines 79-96 derive them from
`message` and the optional `data` dict. -/
def renderFrame (message : String) (data : Option DisplayData) : RenderedFrame :=
  match data with
  | none => ⟨message, none, none, none⟩
  | some d => ⟨message, d.motion, d.distance.map renderDistance, d.timestamp⟩

/-- LCDDisplay.display_message (display.py lines 54-105): renders and
commits `current_message` and `last_update_time` only when at least
`display_update_interval` seconds have passed since the last committed
update; otherwise it leaves the state unchanged and renders nothing.
Returns the new state and the frame rendered, if any. -/
def display_message (st : DisplayState) (message : String)
    (data : Option DisplayData) (now : ℚ) : DisplayState × Option RenderedFrame :=
  if display_update_interval ≤ now - st.last_update_time then
    (⟨message, now⟩, some (renderFrame message data))
  else
    (st, none)

/-- LCDDisplay.show_intrusion_alert (display.py lines 107-120): builds the
data dict with `motion := True` and forwards to `display_message` with the
intrusion message. -/
def show_intrusion_alert (st : DisplayState) (distance : ℚ) (timestamp : String)
    (now : ℚ) : DisplayState × Option RenderedFrame :=
  display_message st INTRUSION_MESSAGE
    (some ⟨some true, some distance, some timestamp⟩) now

/-- LCDDisplay.show_area_safe (display.py lines 122-135): builds the data
dict with `motion := False` and forwards to `display_message` with the safe
message. -/
def show_area_safe (st : DisplayState) (distance : ℚ) (timestamp : String)
    (now : ℚ) : DisplayState × Option RenderedFrame :=
  display_message st SAFE_MESSAGE
    (some ⟨some false, some distance, some timestamp⟩) now

/-- Mutable fields of `DisplayManager` (display.py lines 200-209). -/
structure ManagerState where
  lcd : DisplayState
  display_count : ℕ
  deriving DecidableEq, Repr

/-- DisplayManager.update_display (display.py lines 211-227): dispatches on
the verdict to `show_intrusion_alert` or `show_area_safe` and increments
`display_count`.  The `motion` argument is received but never used. -/
def update_display (st : ManagerState) (intrusion_detected motion : Bool)
    (distance : ℚ) (timestamp : String) (now : ℚ) :
    ManagerState × Option RenderedFrame :=
  let r :=
    if intrusion_detected then
      show_intrusion_alert st.lcd distance timestamp now
    else
      show_area_safe st.lcd distance timestamp now
  (⟨r.1, st.display_count + 1⟩, r.2)

/- ## Monitoring loop cycle (main.py lines 101-156) -/

/-- Outcome of `self.sensor_manager.read_sensors()` as the loop body sees
it: either the four-tuple (motion, distance, temperature, humidity) with the
optional DHT fields possibly `None`, or a raised exception (full
acquisition failure), which the inner `except Exception` handler catches. -/
inductive SensorResult where
  | ok (motion : Bool) (distance : ℚ) (temperature humidity : Option ℚ)
  | failure
  deriving DecidableEq, Repr

/-- State the loop body reads and writes across cycles
(main.py lines 70-71 and the `DisplayManager` it drives). -/
structure SysState where
  alertState : AlertState
  cycleCount : ℕ
  running : Bool
  display : ManagerState
  deriving DecidableEq, Repr

/-- Observable outcome of one loop-body iteration: the verdict computed (if
any), the sleep taken at the end of the iteration, the temperature and
humidity values in use after the `None` substitution (absent when the cycle
aborted), and whether `update_display` was invoked. -/
structure CycleInfo where
  verdict : Option Bool
  pause : ℚ
  usedTemperature : Option ℚ
  usedHumidity : Option ℚ
  displayUpdated : Bool
  deriving DecidableEq, Repr

/-- One iteration of the `while self.running` body (main.py lines 101-156),
parameterised by the configured `DISTANCE_THRESHOLD` and `MAIN_LOOP_DELAY`
(config.py is not under `src/`) and by the wall-clock time `now` the
display layer reads.  A full acquisition failure is caught by the
`except Exception` handler (lines 153-156): the handler only prints and
sleeps 1 second, so every field of the state is left as it was and the loop
proceeds.  On success the body substitutes 0.0 for a `None` temperature or
humidity, computes the verdict, updates the alert state, refreshes the
display, increments the cycle counter and sleeps `MAIN_LOOP_DELAY`. -/
def monitorCycle (threshold delay : ℚ) (st : SysState) (res : SensorResult)
    (now : ℚ) (timestamp : String) : SysState × CycleInfo :=
  match res with
  | .failure => (st, ⟨none, 1, none, none, false⟩)
  | .ok motion distance temperature humidity =>
      let temperature := temperature.getD 0
      let humidity := humidity.getD 0
      let intrusion := check_intrusion motion distance threshold
      let newAlert := (update_status st.alertState intrusion).1
      let d := update_display st.display intrusion motion distance timestamp now
      ({ alertState := newAlert
         cycleCount := st.cycleCount + 1
         running := st.running
         display := d.1 },
       ⟨some intrusion, delay, some temperature, some humidity, true⟩)

/- ## Shutdown, cleanup order and exit paths (main.py lines 162-213) -/

/-- Components acquired in `__init__` (main.py lines 51-53). -/
inductive Component where
  | sensors
  | alerts
  | display
  deriving DecidableEq, Repr

/-- Acquisition order of main.py lines 51-53: `SensorManager()`, then
`AlertManager()`, then `DisplayManager()`. -/
def acquisitionOrder : List Component := [.sensors, .alerts, .display]

/-- Observable events of the shutdown sequence. -/
inductive Event where
  | showShutdown
  | deactivateAlertOutput
  | release (c : Component)
  | gpioCleanup
  | processExit (code : ℕ)
  deriving DecidableEq, Repr

/-- Modelled from the spec: `alerts.py` (AlertManager.cleanup) is not under
`src/`.  Per spec section 4.2 it forces the alert output to the
deactivated state before releasing the alert resource. -/
def alertManagerCleanupTrace : List Event :=
  [.deactivateAlertOutput, .release .alerts]

/-- IntrusionDetectionSystem.cleanup (main.py lines 162-196): shutdown
message, then `alert_manager.cleanup()`, `sensor_manager.cleanup()`,
`display_manager.cleanup()`, then `GPIO.cleanup()`, and in the `finally`
clause `sys.exit(0)`. -/
def cleanupTrace : List Event :=
  [.showShutdown] ++ alertManagerCleanupTrace ++
    [.release .sensors] ++ [.release .display] ++
    [.gpioCleanup, .processExit 0]

/-- Components released by the cleanup sequence, in execution order. -/
def cleanupReleaseOrder : List Event → List Component
  | [] => []
  | .release c :: es => c :: cleanupReleaseOrder es
  | _ :: es => cleanupReleaseOrder es

/-- Exit paths of `run` (main.py lines 198-213): the monitor loop returning
after an in-loop Ctrl+C sets `running` to False, an uncaught runtime error,
or a `KeyboardInterrupt` surfacing outside the inner handler.  All of them
fall through to the `finally` clause. -/
inductive ExitPath where
  | normalStop
  | runtimeError
  | externalInterrupt
  deriving DecidableEq, Repr

/-- The shutdown events each exit path executes: `run`'s `finally` clause
(main.py line 213) invokes `cleanup` on every path. -/
def shutdownTrace (p : ExitPath) : List Event :=
  match p with
  | .normalStop => cleanupTrace
  | .runtimeError => cleanupTrace
  | .externalInterrupt => cleanupTrace

/-- Alert-output level after executing a trace from the given initial
level: only a deactivation event changes it here, since the shutdown
sequence issues no activation. -/
def alertOutputAfter (initial : Bool) : List Event → Bool
  | [] => initial
  | .deactivateAlertOutput :: es => alertOutputAfter false es
  | _ :: es => alertOutputAfter initial es

/-- Component releases executed strictly before the alert output is
deactivated. -/
def releasesBeforeDeactivate : List Event → List Component
  | [] => []
  | .deactivateAlertOutput :: _ => []
  | .release c :: es => c :: releasesBeforeDeactivate es
  | _ :: es => releasesBeforeDeactivate es

/- ## Process exit-code model (main.py lines 76-80, 194-196, 198-213) -/

/-- Exceptions as the control flow distinguishes them: `Exception`
subclasses (caught by `except Exception`), `KeyboardInterrupt`, and
`SystemExit` as raised by `sys.exit(code)` (neither is an `Exception`
subclass, so `except Exception` lets both propagate). -/
inductive PyExc where
  | exception
  | keyboardInterrupt
  | systemExit (code : ℕ)
  deriving DecidableEq, Repr

/-- Python `try/finally` semantics for finalizers that do not depend on the
body's value: the finalizer runs after the body and, if it raises, its
exception replaces the body's outcome. -/
def pyFinally (body fin : Except PyExc Unit) : Except PyExc Unit :=
  match fin with
  | .error e => .error e
  | .ok _ => body

/-- Python `except Exception` semantics: runs the handler only for
`Exception` subclasses; `SystemExit` and `KeyboardInterrupt` propagate. -/
def catchException (body handler : Except PyExc Unit) : Except PyExc Unit :=
  match body with
  | .error .exception => handler
  | other => other

/-- Python `except KeyboardInterrupt` semantics. -/
def catchKeyboardInterrupt (body handler : Except PyExc Unit) :
    Except PyExc Unit :=
  match body with
  | .error .keyboardInterrupt => handler
  | other => other

/-- IntrusionDetectionSystem.cleanup control flow (main.py lines 162-196):
a `try` body (whose own failures are caught by `except Exception`) followed
by a `finally` clause that executes `sys.exit(0)`, so the call always
raises `SystemExit 0` whatever the body did. -/
def cleanupOutcome (body : Except PyExc Unit) : Except PyExc Unit :=
  pyFinally (catchException body (.ok ())) (.error (.systemExit 0))

/-- IntrusionDetectionSystem.__init__ control flow (main.py lines 45-80):
on any `Exception` during component initialization, the handler prints,
shows the error on the display, calls `cleanup()` and then would call
`sys.exit(1)`; the `sys.exit(1)` only runs if `cleanup()` returns
normally. -/
def initOutcome (initFails : Bool) : Except PyExc Unit :=
  catchException (if initFails then .error .exception else .ok ())
    ((cleanupOutcome (.ok ())).bind fun _ => .error (.systemExit 1))

/-- IntrusionDetectionSystem.run control flow (main.py lines 198-213): the
monitor loop guarded by `except KeyboardInterrupt` and `except Exception`
handlers that merely print, with `cleanup()` in the `finally` clause. -/
def runOutcome (monitor : Except PyExc Unit) : Except PyExc Unit :=
  pyFinally
    (catchException (catchKeyboardInterrupt monitor (.ok ())) (.ok ()))
    (cleanupOutcome (.ok ()))

/-- The whole process (main.py lines 220-234): `__init__` followed, when it
returns normally, by `run`. -/
def mainOutcome (initFails : Bool) (monitor : Except PyExc Unit) :
    Except PyExc Unit :=
  (initOutcome initFails).bind fun _ => runOutcome monitor

/-- Exit status the interpreter derives from the program outcome: the
carried code for `SystemExit`, 0 for a normal return, non-zero for an
uncaught exception. -/
def processExitCode (r : Except PyExc Unit) : ℕ :=
  match r with
  | .ok _ => 0
  | .error (.systemExit n) => n
  | .error _ => 1

/- ## Claim theorems for the evaluator and the state machine -/

/-- C1: for every reading and threshold, the intrusion verdict is true iff
the motion flag is true, the distance is valid (not the invalid sentinel)
and the distance is strictly below the threshold; in every other case the
verdict is false, and the (total) evaluation never fails. -/
theorem check_intrusion_iff (motion : Bool) (distance threshold : ℚ) :
    check_intrusion motion distance threshold = true ↔
      motion = true ∧ 0 ≤ distance ∧ distance < threshold := by
  simp [check_intrusion, distanceValid, and_assoc]

/-- C2: `update_status` follows the four-row table of spec section 4.2, and
for every finite verdict sequence the state after applying the updates in
order from SAFE equals the left fold of the transition table over the
sequence starting from SAFE. -/
theorem update_status_table_and_fold :
    update_status .SAFE true = (.ALERT, some .activate) ∧
    update_status .ALERT true = (.ALERT, some .reassert) ∧
    update_status .ALERT false = (.SAFE, some .deactivate) ∧
    update_status .SAFE false = (.SAFE, none) ∧
    ∀ vs : List Bool, runUpdates .SAFE vs = vs.foldl alertTable .SAFE :=
  ⟨rfl, rfl, rfl, rfl, fun vs => runUpdates_eq_foldl .SAFE vs⟩

/-- C3: a cycle whose sensor acquisition fails entirely is aborted
atomically: the state (alert state, cycle counter, running flag, display)
is exactly the prior-cycle state, no verdict is computed, the display is
not refreshed, and the handler takes the fixed 1-second pause while the
loop keeps running. -/
theorem monitorCycle_failure_atomic (threshold delay : ℚ) (st : SysState)
    (now : ℚ) (timestamp : String) :
    monitorCycle threshold delay st .failure now timestamp =
      (st, ⟨none, 1, none, none, false⟩) ∧
    (monitorCycle threshold delay st .failure now timestamp).1.alertState =
      st.alertState ∧
    (monitorCycle threshold delay st .failure now timestamp).1.cycleCount =
      st.cycleCount ∧
    (monitorCycle threshold delay st .failure now timestamp).1.running =
      st.running :=
  ⟨rfl, rfl, rfl, rfl⟩

/-- C7: for every partially failing acquisition (any combination of the
optional temperature and humidity fields being None, including exactly one
of them), each missing field is replaced by the neutral default 0.0 while a
present field keeps its value, and the cycle continues normally: the
verdict is computed, the alert state is updated, the display is refreshed
and the cycle counter advances; a missing optional field never aborts the
cycle. -/
theorem monitorCycle_optional_defaults (threshold delay : ℚ) (st : SysState)
    (motion : Bool) (distance now : ℚ) (timestamp : String)
    (temperature humidity : Option ℚ) :
    (monitorCycle threshold delay st (.ok motion distance temperature humidity)
        now timestamp).2.usedTemperature = some (temperature.getD 0) ∧
    (monitorCycle threshold delay st (.ok motion distance temperature humidity)
        now timestamp).2.usedHumidity = some (humidity.getD 0) ∧
    (∀ v : ℚ,
      (monitorCycle threshold delay st (.ok motion distance none (some v))
          now timestamp).2.usedTemperature = some 0 ∧
      (monitorCycle threshold delay st (.ok motion distance none (some v))
          now timestamp).2.usedHumidity = some v) ∧
    (∀ v : ℚ,
      (monitorCycle threshold delay st (.ok motion distance (some v) none)
          now timestamp).2.usedTemperature = some v ∧
      (monitorCycle threshold delay st (.ok motion distance (some v) none)
          now timestamp).2.usedHumidity = some 0) ∧
    (monitorCycle threshold delay st (.ok motion distance temperature humidity)
        now timestamp).2.verdict = some (check_intrusion motion distance threshold) ∧
    (monitorCycle threshold delay st (.ok motion distance temperature humidity)
        now timestamp).2.displayUpdated = true ∧
    (monitorCycle threshold delay st (.ok motion distance temperature humidity)
        now timestamp).1.alertState =
      (update_status st.alertState (check_intrusion motion distance threshold)).1 ∧
    (monitorCycle threshold delay st (.ok motion distance temperature humidity)
        now timestamp).1.cycleCount = st.cycleCount + 1 ∧
    (monitorCycle threshold delay st (.ok motion distance temperature humidity)
        now timestamp).1.display =
      (update_display st.display (check_intrusion motion distance threshold)
        motion distance timestamp now).1 :=
  ⟨rfl, rfl, fun _ => ⟨rfl, rfl⟩, fun _ => ⟨rfl, rfl⟩, rfl, rfl, rfl, rfl, rfl⟩

/-- C4: on every exit path of `run` (normal stop, runtime error, external
interrupt) the shutdown sequence deactivates the alert output whatever its
level was when shutdown was triggered, and no component resource is
released before the deactivation. -/
theorem shutdown_deactivates_alert (p : ExitPath) (b : Bool) :
    alertOutputAfter b (shutdownTrace p) = false ∧
    releasesBeforeDeactivate (shutdownTrace p) = [] ∧
    Event.deactivateAlertOutput ∈ shutdownTrace p := by
  cases p <;> cases b <;> exact ⟨rfl, rfl, by decide⟩

/-- C5, evaluated on the code: an initialization failure whose handler
reaches `cleanup()` makes the process exit with status 0, because the
`finally` clause of `cleanup` raises `SystemExit 0` before the handler's
`sys.exit(1)` can run; a clean shutdown (normal or operator interrupt)
also exits with status 0. -/
theorem init_failure_exits_zero :
    mainOutcome true (.ok ()) = .error (.systemExit 0) ∧
    processExitCode (mainOutcome true (.ok ())) = 0 ∧
    processExitCode (mainOutcome false (.ok ())) = 0 ∧
    processExitCode (mainOutcome false (.error .keyboardInterrupt)) = 0 :=
  ⟨rfl, rfl, rfl, rfl⟩

/-- C6, evaluated on the code: cleanup releases the components in the
order alerts, sensors, display, which is not the reverse of the
acquisition order sensors, alerts, display. -/
theorem cleanup_release_order_not_reverse :
    cleanupReleaseOrder cleanupTrace =
      [Component.alerts, Component.sensors, Component.display] ∧
    acquisitionOrder.reverse =
      [Component.display, Component.alerts, Component.sensors] ∧
    cleanupReleaseOrder cleanupTrace ≠ acquisitionOrder.reverse := by
  exact ⟨rfl, rfl, by decide⟩

/-- C8: a call to `display_message` strictly less than
`display_update_interval` seconds after the previous committed update
renders nothing and leaves `current_message` and `last_update_time`
unchanged; a call at or after the interval re-renders and commits the new
message and time. -/
theorem display_message_interval_gate (st : DisplayState) (message : String)
    (data : Option DisplayData) (now : ℚ) :
    (now - st.last_update_time < display_update_interval →
      display_message st message data now = (st, none)) ∧
    (display_update_interval ≤ now - st.last_update_time →
      display_message st message data now =
        (⟨message, now⟩, some (renderFrame message data))) := by
  constructor
  · intro h
    simp [display_message, not_le.mpr h]
  · intro h
    simp [display_message, h]

/-- Witness for C8 at concrete inputs: a call 1/2 second after the last
committed update changes nothing, and a call exactly at the interval
commits the new message and time. -/
theorem display_message_interval_gate_witness :
    display_message ⟨"", 0⟩ "A" none (1/2) = (⟨"", 0⟩, none) ∧
    display_message ⟨"", 0⟩ "A" none 1 = (⟨"A", 1⟩, some (renderFrame "A" none)) :=
  ⟨(display_message_interval_gate ⟨"", 0⟩ "A" none (1/2)).1
      (by norm_num [display_update_interval]),
   (display_message_interval_gate ⟨"", 0⟩ "A" none 1).2
      (by norm_num [display_update_interval])⟩

/-- C9: the motion flag placed in the data rendered by
`DisplayManager.update_display` equals the intrusion verdict, and the
actual `motion` argument has no effect on the result. -/
theorem update_display_motion_flag (st : ManagerState)
    (intrusion_detected motion : Bool) (distance : ℚ) (timestamp : String)
    (now : ℚ) :
    update_display st intrusion_detected motion distance timestamp now =
      update_display st intrusion_detected true distance timestamp now ∧
    ∀ f, (update_display st intrusion_detected motion distance timestamp now).2 =
        some f → f.motionLine = some intrusion_detected := by
  refine ⟨rfl, fun f hf => ?_⟩
  cases intrusion_detected <;>
    simp only [update_display, show_intrusion_alert, show_area_safe,
      display_message, Bool.false_eq_true, if_true, if_false] at hf <;>
    split_ifs at hf <;>
    first
      | exact Option.noConfusion hf
      | (dsimp only at hf
         injection hf with hf
         subst hf
         rfl)

/-- Witness for C9 at a concrete input: with verdict true and motion
argument false, the rendered frame carries motion flag true. -/
theorem update_display_motion_flag_witness :
    (renderFrame INTRUSION_MESSAGE
      (some ⟨some true, some 5, some "t"⟩)).motionLine = some true :=
  (update_display_motion_flag ⟨⟨"", 0⟩, 0⟩ true false 5 "t" 1).2
    (renderFrame INTRUSION_MESSAGE (some ⟨some true, some 5, some "t"⟩))
    (by norm_num [update_display, show_intrusion_alert, display_message,
      display_update_interval])

/-- C10: a frame rendered from a data dict with a distance entry goes
through `renderDistance`, which prints the numeric value iff the distance
is strictly positive and the fixed no-valid-reading line otherwise, so a
reading of exactly 0 cm is displayed as invalid even though the monitoring
loop's diagnostic log (main.py line 130) treats it as valid. -/
theorem renderDistance_positive_gate (d : ℚ) :
    (∀ (message : String) (m : Option Bool) (t : Option String),
      (renderFrame message (some ⟨m, some d, t⟩)).distanceLine =
        some (renderDistance d)) ∧
    (renderDistance d = .noValidReading ↔ d ≤ 0) ∧
    (∀ q, renderDistance d = .numeric q ↔ 0 < d ∧ q = d) ∧
    renderDistance 0 = .noValidReading ∧
    logDistanceValid 0 = true := by
  refine ⟨fun _ _ _ => rfl, ?_, ?_, by norm_num [renderDistance],
    by norm_num [logDistanceValid]⟩
  · unfold renderDistance
    split_ifs with h
    · simp [not_le.mpr h]
    · simp [not_lt.mp h]
  · intro q
    unfold renderDistance
    split_ifs with h
    · simp [h, eq_comm]
    · simp [h]

end SamsungIOT
